import Mathlib

/-!
Shallow embedding of the message-lifecycle service of the httpsms
repository (package services, file message_service.go, plus the request
DTO message_thread_update_request.go).

Modelling conventions:
* time.Time is modelled as a Nat tick count; uuid.UUID values that are
  merely carried around are modelled as String.
* The repository collaborator (Load / Store / Update / GetOutstanding) is
  a record holding its data plus failure oracles, since it is an external
  collaborator whose failures the service must handle.
* The event dispatcher and the JSON encoder (cloudevents SetData) are
  oracles in an environment record: dispatchOk says whether Dispatch
  returns nil, encodeOk says whether SetData succeeds on a payload.
* Every service operation returns an Outcome: the list of Dispatch calls
  made (in order), the list of Update calls, the list of Store calls, the
  resulting repository state, and the Go return value (error-only returns
  become Except String Unit).
* Goroutines (the heartbeat, the per-message fan-out) are sequentialized;
  the claims settled here are about which calls occur and about result
  counts, not about interleavings.
-/

namespace HttpSms

/-- Message lifecycle status, entities.MessageStatus. -/
inductive MessageStatus where
  | pending
  | sending
  | sent
  | delivered
  | failed
  | received
deriving DecidableEq

/-- Direction of travel, entities.MessageType. -/
inductive MessageType where
  | mobileOriginated
  | mobileTerminated
deriving DecidableEq

/-- Modelled from the spec: the entities.Message record (the entities
package is not under src/). Fields follow section 3 of the spec; absent
optional timestamps are none. -/
structure Message where
  id : String
  userID : String
  owner : String
  contact : String
  content : String
  type : MessageType
  status : MessageStatus
  requestReceivedAt : Nat
  createdAt : Nat
  updatedAt : Nat
  orderTimestamp : Nat
  sendDuration : Option Int
  lastAttemptedAt : Option Nat
  sentAt : Option Nat
  receivedAt : Option Nat
deriving DecidableEq

/-- Modelled from the spec: entities.Message.IsSending, the pure guard
predicate (status is Sending). -/
def Message.IsSending (m : Message) : Bool :=
  m.status == MessageStatus.sending

/-- Modelled from the spec: entities.Message.IsSent, the pure guard
predicate (status is Sent). -/
def Message.IsSent (m : Message) : Bool :=
  m.status == MessageStatus.sent

/-- Modelled from the spec: entities.Message.AddSendAttempt — required
status Sending, new status Sending, sets LastAttemptedAt. -/
def Message.AddSendAttempt (m : Message) (ts : Nat) : Message :=
  { m with status := MessageStatus.sending, lastAttemptedAt := some ts }

/-- Modelled from the spec: entities.Message.Sent — new status Sent, sets
SentAt and SendDuration = now minus RequestReceivedAt. -/
def Message.Sent (m : Message) (ts : Nat) : Message :=
  { m with status := MessageStatus.sent, sentAt := some ts,
           sendDuration := some ((ts : Int) - (m.requestReceivedAt : Int)) }

/-- Modelled from the spec: entities.Message.Failed — new status Failed. -/
def Message.Failed (m : Message) (ts : Nat) : Message :=
  { m with status := MessageStatus.failed, updatedAt := ts }

/-- Modelled from the spec: entities.Message.Delivered — new status
Delivered, sets the delivery timestamp. -/
def Message.Delivered (m : Message) (ts : Nat) : Message :=
  { m with status := MessageStatus.delivered, receivedAt := some ts }

/-- The repository collaborator: its stored rows plus failure oracles for
each fallible call. outstanding is the batch repository.GetOutstanding
would return (the filter is persistence-defined, hence oracle data). -/
structure Repo where
  data : List Message
  loadFails : String → String → Bool
  storeFails : Bool
  updateFails : Bool
  outstanding : Except String (List Message)

/-- repository.Load(userID, messageID): NotFound or the row. -/
def Repo.load (r : Repo) (userID id : String) : Except String Message :=
  if r.loadFails userID id then Except.error "load failed"
  else
    match r.data.find? (fun m => m.userID == userID && m.id == id) with
    | some m => Except.ok m
    | none => Except.error "message not found"

/-- repository.Store(message): prepends the row on success. -/
def Repo.store (r : Repo) (m : Message) : Except String Repo :=
  if r.storeFails then Except.error "store failed"
  else Except.ok { r with data := m :: r.data }

/-- repository.Update(message): replaces the row with the same key. -/
def Repo.update (r : Repo) (m : Message) : Except String Repo :=
  if r.updateFails then Except.error "update failed"
  else
    let newData := r.data.map (fun x => if x.userID == m.userID && x.id == m.id then m else x)
    Except.ok { r with data := newData }

/-- Typed event payloads of the events package (fields copied from the
payload literals in message_service.go; the events package itself is not
under src/, so the field lists are taken from those literals). -/
inductive EventPayload where
  | messageAPISent (id userID owner contact : String)
      (requestReceivedAt : Nat) (content : String)
  | messagePhoneReceived (id owner contact : String)
      (timestamp : Nat) (content : String)
  | messagePhoneSending (id owner contact userID content : String)
  | messagePhoneSent (id owner userID contact content : String)
      (timestamp : Nat)
  | messagePhoneFailed (id owner contact userID content : String)
      (timestamp : Nat)
  | messagePhoneDelivered (id owner contact content : String)
      (timestamp : Nat)
  | heartbeatPhoneOutstanding (owner : String) (timestamp : Nat)
      (quantity : Nat)
deriving DecidableEq

/-- Modelled from the spec: the fixed event type strings of the events
package (taxonomy of section 6). -/
def EventTypeMessageAPISent : String := "MessageAPISent"

/-- Modelled from the spec: event type string for phone-received events. -/
def EventTypeMessagePhoneReceived : String := "MessagePhoneReceived"

/-- Modelled from the spec: event type string for phone-sending events. -/
def EventTypeMessagePhoneSending : String := "MessagePhoneSending"

/-- Modelled from the spec: event type string for phone-sent events. -/
def EventTypeMessagePhoneSent : String := "MessagePhoneSent"

/-- Modelled from the spec: event type string for phone-failed events. -/
def EventTypeMessagePhoneFailed : String := "MessagePhoneFailed"

/-- Modelled from the spec: event type string for phone-delivered events. -/
def EventTypeMessagePhoneDelivered : String := "MessagePhoneDelivered"

/-- Modelled from the spec: event type string for heartbeat events. -/
def EventTypeHeartbeatPhoneOutstanding : String := "HeartbeatPhoneOutstanding"

/-- The cloudevents envelope: source, type, time, id, and the data set by
SetData (none when SetData was not successfully called). -/
structure CloudEvent where
  source : String
  type : String
  time : Nat
  id : String
  data : Option EventPayload
deriving DecidableEq

/-- Environment of oracles: whether SetData succeeds on a payload, whether
Dispatch returns nil for an envelope, the current time, and the generated
envelope id. -/
structure Env where
  encodeOk : EventPayload → Bool
  dispatchOk : CloudEvent → Bool
  now : Nat
  newID : String

/-- createEvent: builds the envelope (source, type, time, id), then calls
SetData; on SetData failure it returns the envelope without data together
with the error, exactly as the Go function returns the partially built
event alongside err. -/
def createEvent (env : Env) (eventType source : String) (payload : EventPayload) :
    CloudEvent × Option String :=
  let event : CloudEvent :=
    { source := source, type := eventType, time := env.now, id := env.newID,
      data := none }
  if env.encodeOk payload then
    ({ event with data := some payload }, none)
  else
    (event, some ("cannot encode payload as JSON for " ++ eventType))

/-- Result of a service operation: the Dispatch calls made (in order),
the Update calls made, the Store calls made, the repository state after
the operation, and the Go return value (error-only Go returns use
Except String Unit). -/
structure Outcome (α : Type) where
  events : List CloudEvent
  updates : List Message
  stores : List Message
  repo : Repo
  ret : Except String α

/-- Modelled from the spec: entities.MessageEventName (the entities
package is not under src/); the unknown constructor covers every name
outside the three handled ones. -/
inductive MessageEventName where
  | sent
  | delivered
  | failed
  | unknown (s : String)
deriving DecidableEq

/-- Modelled from the spec: the string rendering of an event name, used
in the error message of the default switch case of StoreEvent. -/
def eventNameString : MessageEventName → String
  | MessageEventName.sent => "sent"
  | MessageEventName.delivered => "delivered"
  | MessageEventName.failed => "failed"
  | MessageEventName.unknown s => s

/-- MessageStorePhoneEventParams. -/
structure StoreEventParams where
  messageID : String
  eventName : MessageEventName
  timestamp : Nat
  source : String

/-- handleMessageSentEvent: builds the MessagePhoneSentPayload from the
message and params, creates the envelope and, when creation succeeded,
dispatches it; returns the Dispatch calls made and the error if any. -/
def handleMessageSentEvent (env : Env) (params : StoreEventParams) (message : Message) :
    List CloudEvent × Option String :=
  let payload := EventPayload.messagePhoneSent message.id message.owner
    message.userID message.contact message.content params.timestamp
  match createEvent env EventTypeMessagePhoneSent params.source payload with
  | (_, some e) => ([], some ("cannot create event: " ++ e))
  | (event, none) =>
    if env.dispatchOk event then ([event], none)
    else ([event], some "cannot dispatch event")

/-- handleMessageDeliveredEvent: same shape as handleMessageSentEvent
with the MessagePhoneDeliveredPayload (no UserID field in that payload). -/
def handleMessageDeliveredEvent (env : Env) (params : StoreEventParams) (message : Message) :
    List CloudEvent × Option String :=
  let payload := EventPayload.messagePhoneDelivered message.id message.owner
    message.contact message.content params.timestamp
  match createEvent env EventTypeMessagePhoneDelivered params.source payload with
  | (_, some e) => ([], some ("cannot create event: " ++ e))
  | (event, none) =>
    if env.dispatchOk event then ([event], none)
    else ([event], some "cannot dispatch event")

/-- handleMessageFailedEvent: same shape with MessagePhoneFailedPayload. -/
def handleMessageFailedEvent (env : Env) (params : StoreEventParams) (message : Message) :
    List CloudEvent × Option String :=
  let payload := EventPayload.messagePhoneFailed message.id message.owner
    message.contact message.userID message.content params.timestamp
  match createEvent env EventTypeMessagePhoneFailed params.source payload with
  | (_, some e) => ([], some ("cannot create event: " ++ e))
  | (event, none) =>
    if env.dispatchOk event then ([event], none)
    else ([event], some "cannot dispatch event")

/-- StoreEvent: switches on the event name to the matching handler (any
other name is an error without any handler call), wraps a handler error,
and on success returns repository.Load(message.UserID, params.MessageID). -/
def StoreEvent (env : Env) (repo : Repo) (message : Message) (params : StoreEventParams) :
    Outcome Message :=
  let handled : Option (List CloudEvent × Option String) :=
    match params.eventName with
    | MessageEventName.sent => some (handleMessageSentEvent env params message)
    | MessageEventName.delivered => some (handleMessageDeliveredEvent env params message)
    | MessageEventName.failed => some (handleMessageFailedEvent env params message)
    | MessageEventName.unknown _ => none
  match handled with
  | none =>
    { events := [], updates := [], stores := [], repo := repo,
      ret := Except.error ("cannot handle message event [" ++ eventNameString params.eventName ++ "]") }
  | some (evs, some e) =>
    { events := evs, updates := [], stores := [], repo := repo,
      ret := Except.error ("could not handle phone event for message with id [" ++ message.id ++ "]: " ++ e) }
  | some (evs, none) =>
    { events := evs, updates := [], stores := [], repo := repo,
      ret := repo.load message.userID params.messageID }

/-- Status rendered as in the entities constants (used in the wrong-status
error messages, modelled from the spec status names). -/
def statusName : MessageStatus → String
  | MessageStatus.pending => "pending"
  | MessageStatus.sending => "sending"
  | MessageStatus.sent => "sent"
  | MessageStatus.delivered => "delivered"
  | MessageStatus.failed => "failed"
  | MessageStatus.received => "received"

/-- The wrong-status error text of HandleMessageSending, HandleMessageSent
and HandleMessageDelivered: carries the actual and the expected status. -/
def wrongStatusSingle (actual expected : MessageStatus) : String :=
  "message has wrong status [" ++ statusName actual ++ "]. expected " ++ statusName expected

/-- The wrong-status error text of HandleMessageFailed: carries the actual
status and the two expected statuses Sending and Sent. -/
def wrongStatusPair (actual : MessageStatus) : String :=
  "message has wrong status [" ++ statusName actual ++ "]. expected [" ++
    statusName MessageStatus.sending ++ "," ++ statusName MessageStatus.sent ++ "]"

/-- HandleMessageParams: id, userID, timestamp. -/
structure HandleMessageParams where
  id : String
  userID : String
  timestamp : Nat

/-- An Outcome with no dispatch, update or store calls and an unchanged
repository: the shape every pure-failure path of a handler returns. -/
def noSideEffects {α : Type} (repo : Repo) (e : String) : Outcome α :=
  { events := [], updates := [], stores := [], repo := repo, ret := Except.error e }

/-- HandleMessageSending: load, guard IsSending, Update with
AddSendAttempt; returns only an error (Go return type is error). -/
def HandleMessageSending (repo : Repo) (p : HandleMessageParams) : Outcome Unit :=
  match repo.load p.userID p.id with
  | Except.error e => noSideEffects repo ("cannot find message with id [" ++ p.id ++ "]: " ++ e)
  | Except.ok message =>
    if message.IsSending then
      let updated := message.AddSendAttempt p.timestamp
      match repo.update updated with
      | Except.error e =>
        { events := [], updates := [updated], stores := [], repo := repo,
          ret := Except.error ("cannot update message after sending: " ++ e) }
      | Except.ok repo2 =>
        { events := [], updates := [updated], stores := [], repo := repo2,
          ret := Except.ok () }
    else noSideEffects repo (wrongStatusSingle message.status MessageStatus.sending)

/-- HandleMessageSent: load, guard IsSending, Update with Sent; returns
only an error (Go return type is error). -/
def HandleMessageSent (repo : Repo) (p : HandleMessageParams) : Outcome Unit :=
  match repo.load p.userID p.id with
  | Except.error e => noSideEffects repo ("cannot find message with id [" ++ p.id ++ "]: " ++ e)
  | Except.ok message =>
    if message.IsSending then
      let updated := message.Sent p.timestamp
      match repo.update updated with
      | Except.error e =>
        { events := [], updates := [updated], stores := [], repo := repo,
          ret := Except.error ("cannot update message as sent: " ++ e) }
      | Except.ok repo2 =>
        { events := [], updates := [updated], stores := [], repo := repo2,
          ret := Except.ok () }
    else noSideEffects repo (wrongStatusSingle message.status MessageStatus.sending)

/-- HandleMessageFailed: load, guard IsSent or IsSending, Update with
Failed; returns only an error (Go return type is error). -/
def HandleMessageFailed (repo : Repo) (p : HandleMessageParams) : Outcome Unit :=
  match repo.load p.userID p.id with
  | Except.error e => noSideEffects repo ("cannot find message with id [" ++ p.id ++ "]: " ++ e)
  | Except.ok message =>
    if !message.IsSent && !message.IsSending then
      noSideEffects repo (wrongStatusPair message.status)
    else
      let updated := message.Failed p.timestamp
      match repo.update updated with
      | Except.error e =>
        { events := [], updates := [updated], stores := [], repo := repo,
          ret := Except.error ("cannot update message as failed: " ++ e) }
      | Except.ok repo2 =>
        { events := [], updates := [updated], stores := [], repo := repo2,
          ret := Except.ok () }

/-- HandleMessageDelivered: load, guard IsSent, Update with Delivered;
returns only an error (Go return type is error). -/
def HandleMessageDelivered (repo : Repo) (p : HandleMessageParams) : Outcome Unit :=
  match repo.load p.userID p.id with
  | Except.error e => noSideEffects repo ("cannot find message with id [" ++ p.id ++ "]: " ++ e)
  | Except.ok message =>
    if message.IsSent then
      let updated := message.Delivered p.timestamp
      match repo.update updated with
      | Except.error e =>
        { events := [], updates := [updated], stores := [], repo := repo,
          ret := Except.error ("cannot update message as delivered: " ++ e) }
      | Except.ok repo2 =>
        { events := [], updates := [updated], stores := [], repo := repo2,
          ret := Except.ok () }
    else noSideEffects repo (wrongStatusSingle message.status MessageStatus.sent)

/-- MessageStoreParams for StoreSentMessage and StoreReceivedMessage. -/
structure MessageStoreParams where
  owner : String
  contact : String
  content : String
  userID : String
  id : String
  timestamp : Nat

/-- The message literal built by StoreSentMessage: Type MobileTerminated,
Status Pending, RequestReceivedAt and OrderTimestamp from the params
Timestamp, the optional timestamps nil. The Go literal has no UserID
field, so UserID stays at its zero value (the empty string). -/
def builtSentMessage (now : Nat) (params : MessageStoreParams) : Message :=
  { id := params.id, userID := "", owner := params.owner,
    contact := params.contact, content := params.content,
    type := MessageType.mobileTerminated, status := MessageStatus.pending,
    requestReceivedAt := params.timestamp, createdAt := now, updatedAt := now,
    orderTimestamp := params.timestamp, sendDuration := none,
    lastAttemptedAt := none, sentAt := none, receivedAt := none }

/-- StoreSentMessage: builds the literal and calls repository.Store. -/
def StoreSentMessage (now : Nat) (repo : Repo) (params : MessageStoreParams) :
    Outcome Message :=
  let message := builtSentMessage now params
  match repo.store message with
  | Except.error e =>
    { events := [], updates := [], stores := [message], repo := repo,
      ret := Except.error ("cannot save message with id [" ++ params.id ++ "]: " ++ e) }
  | Except.ok repo2 =>
    { events := [], updates := [], stores := [message], repo := repo2,
      ret := Except.ok message }

/-- The message literal built by StoreReceivedMessage: Type
MobileOriginated, Status Received, UserID copied from the params,
ReceivedAt set to the params Timestamp. -/
def builtReceivedMessage (now : Nat) (params : MessageStoreParams) : Message :=
  { id := params.id, userID := params.userID, owner := params.owner,
    contact := params.contact, content := params.content,
    type := MessageType.mobileOriginated, status := MessageStatus.received,
    requestReceivedAt := params.timestamp, createdAt := now, updatedAt := now,
    orderTimestamp := params.timestamp, sendDuration := none,
    lastAttemptedAt := none, sentAt := none, receivedAt := some params.timestamp }

/-- StoreReceivedMessage: builds the literal and calls repository.Store. -/
def StoreReceivedMessage (now : Nat) (repo : Repo) (params : MessageStoreParams) :
    Outcome Message :=
  let message := builtReceivedMessage now params
  match repo.store message with
  | Except.error e =>
    { events := [], updates := [], stores := [message], repo := repo,
      ret := Except.error ("cannot save message with id [" ++ params.id ++ "]: " ++ e) }
  | Except.ok repo2 =>
    { events := [], updates := [], stores := [message], repo := repo2,
      ret := Except.ok message }

/-- MessageGetOutstandingParams. -/
structure GetOutstandingParams where
  source : String
  owner : String
  userID : String
  timestamp : Nat
  limit : Nat

/-- registerHeartbeatEvent: builds the HeartbeatPhoneOutstanding envelope
and then calls Dispatch. Faithful to the Go function: when createEvent
fails the error is only logged and control FALLS THROUGH (the function has
no return statement there), so Dispatch is called with the partially
built envelope in every case. Returns the Dispatch calls made. -/
def registerHeartbeatEvent (env : Env) (quantity : Nat) (params : GetOutstandingParams) :
    List CloudEvent :=
  let payload := EventPayload.heartbeatPhoneOutstanding params.owner params.timestamp quantity
  let created := createEvent env EventTypeHeartbeatPhoneOutstanding params.source payload
  [created.1]

/-- The body of one fan-out goroutine of handleOutstandingMessages: build
the MessagePhoneSending envelope, dispatch it, reload the message; on any
step failure log and contribute nothing. Returns the Dispatch calls made
and the reloaded message when every step succeeded. -/
def processOutstandingMessage (env : Env) (repo : Repo) (source : String) (message : Message) :
    List CloudEvent × Option Message :=
  let payload := EventPayload.messagePhoneSending message.id message.owner
    message.contact message.userID message.content
  match createEvent env EventTypeMessagePhoneSending source payload with
  | (_, some _) => ([], none)
  | (event, none) =>
    if env.dispatchOk event then
      match repo.load message.userID message.id with
      | Except.error _ => ([event], none)
      | Except.ok result => ([event], some result)
    else ([event], none)

/-- handleOutstandingMessages: one task per message, each contributing its
reloaded message to the shared accumulator when all its steps succeed;
sequentialized here (the claims below are about dispatch calls and result
counts, not interleavings). Returns the Dispatch calls and the results. -/
def handleOutstandingMessages (env : Env) (repo : Repo) (source : String) :
    List Message → List CloudEvent × List Message
  | [] => ([], [])
  | m :: rest =>
    let step := processOutstandingMessage env repo source m
    let other := handleOutstandingMessages env repo source rest
    (step.1 ++ other.1,
      match step.2 with
      | some r => r :: other.2
      | none => other.2)

/-- GetOutstanding: fetch the outstanding batch from the repository
(propagating a fetch failure as the only error path), spawn the heartbeat
emission, then fan out and return the collected results. -/
def GetOutstanding (env : Env) (repo : Repo) (params : GetOutstandingParams) :
    Outcome (List Message) :=
  match repo.outstanding with
  | Except.error e =>
    { events := [], updates := [], stores := [], repo := repo,
      ret := Except.error ("could not fetch outstanding messages: " ++ e) }
  | Except.ok messages =>
    let hb := registerHeartbeatEvent env messages.length params
    let fanout := handleOutstandingMessages env repo params.source messages
    { events := hb ++ fanout.1, updates := [], stores := [], repo := repo,
      ret := Except.ok fanout.2 }

/-- True when the per-message fan-out task for this message fails one of
its steps (event build, dispatch, or reload) and so contributes nothing. -/
def outstandingStepFails (env : Env) (repo : Repo) (source : String) (m : Message) : Bool :=
  (processOutstandingMessage env repo source m).2.isNone

/-- Whether an Except value is the ok case. -/
def exceptOk {ε α : Type} : Except ε α → Bool
  | Except.ok _ => true
  | Except.error _ => false

/-- Decidable equality of Except values with decidable components. -/
instance exceptDecEq {ε α : Type} [DecidableEq ε] [DecidableEq α] :
    DecidableEq (Except ε α) := fun x y =>
  match x, y with
  | Except.ok a, Except.ok b =>
    if h : a = b then isTrue (congrArg Except.ok h)
    else isFalse (fun hc => h (Except.ok.inj hc))
  | Except.error a, Except.error b =>
    if h : a = b then isTrue (congrArg Except.error h)
    else isFalse (fun hc => h (Except.error.inj hc))
  | Except.ok _, Except.error _ => isFalse (fun hc => Except.noConfusion hc)
  | Except.error _, Except.ok _ => isFalse (fun hc => Except.noConfusion hc)

/-- Hexadecimal digit value, as in the xvalues table of the uuid package. -/
def hexVal (c : Char) : Option Nat :=
  if c ≥ Char.ofNat 48 && c ≤ Char.ofNat 57 then some (c.toNat - 48)
  else if c ≥ Char.ofNat 97 && c ≤ Char.ofNat 102 then some (c.toNat - 97 + 10)
  else if c ≥ Char.ofNat 65 && c ≤ Char.ofNat 70 then some (c.toNat - 65 + 10)
  else none

/-- xtob over a whole character list: each consecutive pair of hex digits
becomes one byte; fails on any non-hex character or odd length. -/
def parseHexPairs : List Char → Option (List Nat)
  | [] => some []
  | a :: b :: rest =>
    match hexVal a, hexVal b with
    | some ha, some hb =>
      match parseHexPairs rest with
      | some tl => some ((16 * ha + hb) :: tl)
      | none => none
    | _, _ => none
  | _ => none

/-- The canonical 36-character form xxxxxxxx-xxxx-xxxx-xxxx-xxxxxxxxxxxx:
dashes at offsets 8, 13, 18, 23 and hex everywhere else. -/
def parse36 (cs : List Char) : Option (List Nat) :=
  if cs.length == 36 &&
     cs.get? 8 == some (Char.ofNat 45) && cs.get? 13 == some (Char.ofNat 45) &&
     cs.get? 18 == some (Char.ofNat 45) && cs.get? 23 == some (Char.ofNat 45) then
    parseHexPairs (cs.take 8 ++ ((cs.drop 9).take 4) ++ ((cs.drop 14).take 4) ++
      ((cs.drop 19).take 4) ++ (cs.drop 24))
  else none

/-- uuid.Parse of the google uuid package (an external library): accepts
the canonical form, the urn:uuid: prefixed form, the braced form, and the
32-character plain hex form; anything else is an error (none). -/
def uuidParse (s : String) : Option (List Nat) :=
  let cs := s.toList
  if cs.length == 36 then parse36 cs
  else if cs.length == 45 then
    if (cs.take 9).map Char.toLower == "urn:uuid:".toList then parse36 (cs.drop 9)
    else none
  else if cs.length == 38 then
    if cs.get? 0 == some (Char.ofNat 123) && cs.get? 37 == some (Char.ofNat 125) then
      parse36 ((cs.drop 1).take 36)
    else none
  else if cs.length == 32 then parseHexPairs cs
  else none

/-- The MessageThreadUpdate request DTO. -/
structure MessageThreadUpdate where
  isArchived : Bool
  messageThreadID : String

/-- services.MessageThreadStatusParams. -/
structure MessageThreadStatusParams where
  userID : String
  messageThreadID : List Nat
  isArchived : Bool
deriving DecidableEq

/-- ToUpdateParams: converts the DTO with uuid.MustParse on the
MessageThreadID; MustParse panics when Parse fails, modelled as none. -/
def ToUpdateParams (input : MessageThreadUpdate) (userID : String) :
    Option MessageThreadStatusParams :=
  (uuidParse input.messageThreadID).map (fun u =>
    { userID := userID, messageThreadID := u, isArchived := input.isArchived })

/-- A repository with the given rows and no induced failures. -/
def mkRepo (data : List Message) : Repo :=
  { data := data, loadFails := fun _ _ => false, storeFails := false,
    updateFails := false, outstanding := Except.ok [] }

/-- A sample message used by the concrete instances below. -/
def sampleMessage (id uid : String) (st : MessageStatus) : Message :=
  { id := id, userID := uid, owner := "+1000", contact := "+2000",
    content := "hello", type := MessageType.mobileTerminated, status := st,
    requestReceivedAt := 1, createdAt := 2, updatedAt := 2, orderTimestamp := 1,
    sendDuration := none, lastAttemptedAt := none, sentAt := none,
    receivedAt := none }

/-- An environment in which SetData and Dispatch always succeed. -/
def envAllOk : Env :=
  { encodeOk := fun _ => true, dispatchOk := fun _ => true, now := 3, newID := "e1" }

/-- An environment in which SetData fails on every payload. -/
def envEncodeFails : Env :=
  { encodeOk := fun _ => false, dispatchOk := fun _ => true, now := 7, newID := "evt1" }

/-- Concrete GetOutstanding params for the heartbeat instance. -/
def c1params : GetOutstandingParams :=
  { source := "phone1", owner := "+1000", userID := "u", timestamp := 7, limit := 5 }

/-- Concrete StoreEvent params naming an event the switch handles. -/
def c1storeParams : StoreEventParams :=
  { messageID := "m1", eventName := MessageEventName.sent, timestamp := 1, source := "s" }

/-- Concrete message with status Pending for the StoreEvent instance. -/
def c2msg : Message := sampleMessage "m1" "u1" MessageStatus.pending

/-- Repository holding only c2msg. -/
def c2repo : Repo := mkRepo [c2msg]

/-- StoreEvent params with event name Sent for message m1. -/
def c2params : StoreEventParams :=
  { messageID := "m1", eventName := MessageEventName.sent, timestamp := 5, source := "s" }

/-- StoreEvent params with an unhandled event name. -/
def c2uparams : StoreEventParams :=
  { messageID := "m1", eventName := MessageEventName.unknown "boom", timestamp := 5, source := "s" }

/-- Concrete message with status Delivered for the Sent-guard instance. -/
def c3msg : Message := sampleMessage "m3" "u3" MessageStatus.delivered

/-- Repository holding only c3msg. -/
def c3repo : Repo := mkRepo [c3msg]

/-- Handle params addressing c3msg. -/
def c3p : HandleMessageParams := { id := "m3", userID := "u3", timestamp := 4 }

/-- Concrete message with status Sending for the Failed-transition instance. -/
def c4msg : Message := sampleMessage "m4" "u4" MessageStatus.sending

/-- Repository holding only c4msg. -/
def c4repo : Repo := mkRepo [c4msg]

/-- Handle params addressing c4msg. -/
def c4p : HandleMessageParams := { id := "m4", userID := "u4", timestamp := 9 }

/-- First outstanding message of the fan-out instance. -/
def c5m1 : Message := sampleMessage "m1" "u" MessageStatus.pending

/-- Second outstanding message of the fan-out instance; its dispatch fails. -/
def c5m2 : Message := sampleMessage "m2" "u" MessageStatus.pending

/-- Dispatcher that rejects exactly the sending event for message m2. -/
def c5dispatch : CloudEvent → Bool := fun ev =>
  match ev.data with
  | some (EventPayload.messagePhoneSending id _ _ _ _) => !(id == "m2")
  | _ => true

/-- Environment whose dispatcher rejects the event for m2. -/
def c5env : Env :=
  { encodeOk := fun _ => true, dispatchOk := c5dispatch, now := 0, newID := "e" }

/-- Repository whose outstanding batch is the two messages above. -/
def c5repo : Repo :=
  { data := [c5m1, c5m2], loadFails := fun _ _ => false, storeFails := false,
    updateFails := false, outstanding := Except.ok [c5m1, c5m2] }

/-- GetOutstanding params for the fan-out instance. -/
def c5params : GetOutstandingParams :=
  { source := "s", owner := "+1000", userID := "u", timestamp := 0, limit := 10 }

/-- Concrete store params for the StoreSentMessage round-trip instance. -/
def c6params : MessageStoreParams :=
  { owner := "+1", contact := "+2", content := "hi", userID := "u6", id := "m6", timestamp := 11 }

/-- First successful HandleMessageSending run of the return-value instance. -/
def c7mA : Message := sampleMessage "mA" "uA" MessageStatus.sending

/-- Second run persisting a different record. -/
def c7mB : Message :=
  { sampleMessage "mB" "uB" MessageStatus.sending with content := "other" }

/-- Repository of the first run. -/
def c7repoA : Repo := mkRepo [c7mA]

/-- Repository of the second run. -/
def c7repoB : Repo := mkRepo [c7mB]

/-- Handle params addressing c7mA. -/
def c7pA : HandleMessageParams := { id := "mA", userID := "uA", timestamp := 2 }

/-- Handle params addressing c7mB. -/
def c7pB : HandleMessageParams := { id := "mB", userID := "uB", timestamp := 3 }

/-- Concrete message with status Pending for the Delivered-guard instance. -/
def c7mC : Message := sampleMessage "mC" "uC" MessageStatus.pending

/-- Repository holding only c7mC. -/
def c7repoC : Repo := mkRepo [c7mC]

/-- Handle params addressing c7mC. -/
def c7pC : HandleMessageParams := { id := "mC", userID := "uC", timestamp := 2 }

/-- Concrete store params with a non-empty UserID. -/
def c9params : MessageStoreParams :=
  { owner := "+1", contact := "+2", content := "x", userID := "u9", id := "m9", timestamp := 1 }

/-- The fan-out results are exactly the successful per-message tasks. -/
theorem handleOutstanding_results (env : Env) (repo : Repo) (source : String) :
    ∀ messages : List Message,
      (handleOutstandingMessages env repo source messages).2 =
        messages.filterMap (fun m => (processOutstandingMessage env repo source m).2)
  | [] => rfl
  | m :: rest => by
    have ih := handleOutstanding_results env repo source rest
    unfold handleOutstandingMessages
    cases h : (processOutstandingMessage env repo source m).2 <;>
      simp [List.filterMap_cons, h, ih]

/-- Counting lemma: filterMap keeps the length minus the failing entries. -/
theorem length_filterMap_add_failures {α β : Type} (f : α → Option β) :
    ∀ l : List α,
      (l.filterMap f).length + (l.filter (fun a => (f a).isNone)).length = l.length
  | [] => rfl
  | a :: l => by
    have ih := length_filterMap_add_failures f l
    cases h : f a <;>
      simp [List.filterMap_cons, List.filter_cons, h] <;> omega

/-- C1: code bug in registerHeartbeatEvent — when SetData fails while
building the heartbeat envelope, the error is only logged and the
function falls through (no return), so Dispatch is still called with the
partially built, data-less envelope; every other event-emitting
operation (here handleMessageSentEvent as representative) returns before
dispatching on the same failure. -/
theorem c1_heartbeat_dispatches_despite_encode_failure :
    (createEvent envEncodeFails EventTypeHeartbeatPhoneOutstanding c1params.source
        (EventPayload.heartbeatPhoneOutstanding c1params.owner c1params.timestamp 3)).2.isSome = true ∧
    registerHeartbeatEvent envEncodeFails 3 c1params =
      [{ source := "phone1", type := EventTypeHeartbeatPhoneOutstanding, time := 7,
         id := "evt1", data := none }] ∧
    (handleMessageSentEvent envEncodeFails c1storeParams (sampleMessage "m1" "u1" MessageStatus.sending)).1 = [] := by
  refine ⟨rfl, rfl, rfl⟩

/-- C8: GetOutstanding returns an error exactly when the repository fetch
of outstanding messages fails; the environment (hence any heartbeat or
per-message encode or dispatch failure) never changes the error status. -/
theorem c8_getOutstanding_error_iff_fetch_fails (env : Env) (repo : Repo)
    (params : GetOutstandingParams) :
    exceptOk (GetOutstanding env repo params).ret = exceptOk repo.outstanding := by
  unfold GetOutstanding
  cases repo.outstanding <;> rfl

/-- C10: ToUpdateParams returns normally exactly when MessageThreadID
parses as a UUID; on the concrete non-UUID input it panics (modelled as
none), and a well-formed UUID input returns normally. -/
theorem c10_toUpdateParams_panics_on_invalid_uuid :
    (∀ (input : MessageThreadUpdate) (uid : String),
      (ToUpdateParams input uid).isSome = (uuidParse input.messageThreadID).isSome) ∧
    ToUpdateParams { isArchived := true, messageThreadID := "not-a-uuid" } "user" = none ∧
    (ToUpdateParams { isArchived := true, messageThreadID := "11111111-2222-3333-4444-555555555555" } "user").isSome = true := by
  refine ⟨?_, rfl, by decide⟩
  intro input uid
  unfold ToUpdateParams
  cases uuidParse input.messageThreadID <;> rfl

/-- C3: when the loaded message's status is not Sending, HandleMessageSent
returns the wrong-status error carrying the actual and the expected
status, makes no Update call, emits no event, and leaves the repository
unchanged. -/
theorem c3_sent_wrong_status_rejected (repo : Repo) (p : HandleMessageParams)
    (m : Message)
    (hload : repo.load p.userID p.id = Except.ok m)
    (hst : m.status ≠ MessageStatus.sending) :
    HandleMessageSent repo p =
      { events := [], updates := [], stores := [], repo := repo,
        ret := Except.error (wrongStatusSingle m.status MessageStatus.sending) } := by
  have hguard : m.IsSending = false := by
    simp [Message.IsSending, hst]
  unfold HandleMessageSent
  rw [hload]
  simp [hguard, noSideEffects]

/-- C3 witness: the theorem applied to a concrete repository holding a
Delivered message. -/
theorem c3_sent_wrong_status_rejected_witness :
    HandleMessageSent c3repo c3p =
      { events := [], updates := [], stores := [], repo := c3repo,
        ret := Except.error (wrongStatusSingle MessageStatus.delivered MessageStatus.sending) } :=
  c3_sent_wrong_status_rejected c3repo c3p c3msg (by rfl) (by decide)

/-- C4: HandleMessageFailed succeeds (persisting the Failed record) when
the loaded message's status is Sending or Sent and the Update call
succeeds, and fails with the transition error, persisting nothing, when
the status is Pending, Delivered or Received. -/
theorem c4_failed_transition_domain (repo : Repo) (p : HandleMessageParams)
    (m : Message)
    (hload : repo.load p.userID p.id = Except.ok m) :
    ((m.status = MessageStatus.sending ∨ m.status = MessageStatus.sent) →
      repo.updateFails = false →
      ∃ repo2, repo.update (m.Failed p.timestamp) = Except.ok repo2 ∧
        HandleMessageFailed repo p =
          { events := [], updates := [m.Failed p.timestamp], stores := [],
            repo := repo2, ret := Except.ok () }) ∧
    ((m.status = MessageStatus.pending ∨ m.status = MessageStatus.delivered ∨
        m.status = MessageStatus.received) →
      HandleMessageFailed repo p =
        { events := [], updates := [], stores := [], repo := repo,
          ret := Except.error (wrongStatusPair m.status) }) := by
  constructor
  · intro hok hupd
    have hguard : (!m.IsSent && !m.IsSending) = false := by
      rcases hok with h | h <;> simp [Message.IsSent, Message.IsSending, h]
    obtain ⟨repo2, hup⟩ : ∃ r2, repo.update (m.Failed p.timestamp) = Except.ok r2 := by
      simp [Repo.update, hupd]
    refine ⟨repo2, hup, ?_⟩
    unfold HandleMessageFailed
    rw [hload]
    simp [hguard, hup]
  · intro hbad
    have hguard : (!m.IsSent && !m.IsSending) = true := by
      rcases hbad with h | h | h <;> simp [Message.IsSent, Message.IsSending, h]
    unfold HandleMessageFailed
    rw [hload]
    simp [hguard, noSideEffects]

/-- C4 witness: the theorem applied to a concrete Sending message; the
Failed transition succeeds and persists the Failed record. -/
theorem c4_failed_transition_domain_witness :
    ∃ repo2, c4repo.update (c4msg.Failed 9) = Except.ok repo2 ∧
      HandleMessageFailed c4repo c4p =
        { events := [], updates := [c4msg.Failed 9], stores := [],
          repo := repo2, ret := Except.ok () } :=
  (c4_failed_transition_domain c4repo c4p c4msg (by rfl)).1 (Or.inl rfl) rfl

/-- C2 counterexample: a Pending message (outside any required status
set for the Sent event) given to StoreEvent with event name Sent is
handled without error and the event IS dispatched — the handlers perform
no transition-guard validation. -/
theorem c2_storeEvent_no_guard_counterexample :
    c2msg.status ≠ MessageStatus.sending ∧ c2msg.status ≠ MessageStatus.sent ∧
    (StoreEvent envAllOk c2repo c2msg c2params).events ≠ [] ∧
    exceptOk (StoreEvent envAllOk c2repo c2msg c2params).ret = true := by
  decide

/-- C2 amended: the StoreEvent handlers build and dispatch the typed
event without consulting the message's status (the outcome is invariant
under changing the status), and only an event name outside
Sent, Delivered, Failed makes StoreEvent return an error without any
dispatch. -/
theorem c2_storeEvent_dispatch_guardless (env : Env) (repo : Repo) (m : Message)
    (p : StoreEventParams) (s1 s2 : MessageStatus) :
    StoreEvent env repo { m with status := s1 } p =
      StoreEvent env repo { m with status := s2 } p ∧
    (∀ name, p.eventName = MessageEventName.unknown name →
      (StoreEvent env repo m p).events = [] ∧
      (StoreEvent env repo m p).ret =
        Except.error ("cannot handle message event [" ++ name ++ "]")) := by
  constructor
  · cases p.eventName <;>
      simp [StoreEvent, handleMessageSentEvent, handleMessageDeliveredEvent,
            handleMessageFailedEvent, createEvent]
  · intro name hname
    simp [StoreEvent, hname, eventNameString]

/-- C2 amended witness: the status-invariance and the default-case error
at concrete inputs. -/
theorem c2_storeEvent_dispatch_guardless_witness :
    StoreEvent envAllOk c2repo { c2msg with status := MessageStatus.pending } c2uparams =
      StoreEvent envAllOk c2repo { c2msg with status := MessageStatus.sent } c2uparams ∧
    (StoreEvent envAllOk c2repo c2msg c2uparams).events = [] ∧
    (StoreEvent envAllOk c2repo c2msg c2uparams).ret =
      Except.error ("cannot handle message event [" ++ "boom" ++ "]") := by
  have h := c2_storeEvent_dispatch_guardless envAllOk c2repo c2msg c2uparams
    MessageStatus.pending MessageStatus.sent
  exact ⟨h.1, (h.2 "boom" rfl).1, (h.2 "boom" rfl).2⟩

/-- C5: when the outstanding fetch yields N messages of which exactly K
fail a per-message step (event build, dispatch or reload), GetOutstanding
returns ok with exactly N − K results. -/
theorem c5_getOutstanding_partial_results (env : Env) (repo : Repo)
    (params : GetOutstandingParams) (messages : List Message) (K : Nat)
    (hout : repo.outstanding = Except.ok messages)
    (hK : K = (messages.filter (outstandingStepFails env repo params.source)).length) :
    ∃ results, (GetOutstanding env repo params).ret = Except.ok results ∧
      results.length = messages.length - K := by
  refine ⟨(handleOutstandingMessages env repo params.source messages).2, ?_, ?_⟩
  · unfold GetOutstanding
    rw [hout]
  · rw [handleOutstanding_results]
    have hcount := length_filterMap_add_failures
      (fun m => (processOutstandingMessage env repo params.source m).2) messages
    have hfil : (messages.filter
        (fun m => ((processOutstandingMessage env repo params.source m).2).isNone)).length = K := by
      rw [hK]
      rfl
    omega

/-- C5 witness: two outstanding messages, the dispatcher rejecting the
second one's event; GetOutstanding returns one result and no error. -/
theorem c5_getOutstanding_partial_results_witness :
    ∃ results, (GetOutstanding c5env c5repo c5params).ret = Except.ok results ∧
      results.length = 2 - 1 :=
  c5_getOutstanding_partial_results c5env c5repo c5params [c5m1, c5m2] 1 rfl (by decide)

/-- C6: when the Store succeeds, StoreSentMessage returns a message that
a subsequent Load of the same ID also returns, with Status Pending, Type
MobileTerminated, RequestReceivedAt and OrderTimestamp both equal to the
params Timestamp, and SendDuration, LastAttemptedAt, SentAt, ReceivedAt
all unset. -/
theorem c6_store_sent_roundtrip (now : Nat) (repo : Repo)
    (params : MessageStoreParams)
    (hstore : repo.storeFails = false)
    (hload : repo.loadFails "" params.id = false) :
    ∃ m, (StoreSentMessage now repo params).ret = Except.ok m ∧
      (StoreSentMessage now repo params).repo.load "" params.id = Except.ok m ∧
      m.status = MessageStatus.pending ∧ m.type = MessageType.mobileTerminated ∧
      m.requestReceivedAt = params.timestamp ∧ m.orderTimestamp = params.timestamp ∧
      m.sendDuration = none ∧ m.lastAttemptedAt = none ∧ m.sentAt = none ∧
      m.receivedAt = none := by
  refine ⟨builtSentMessage now params, ?_, ?_, rfl, rfl, rfl, rfl, rfl, rfl, rfl, rfl⟩
  · unfold StoreSentMessage Repo.store
    rw [hstore]
    rfl
  · unfold StoreSentMessage Repo.store
    rw [hstore]
    simp [Repo.load, hload, builtSentMessage, List.find?]

/-- C6 witness: the round-trip at a concrete store params and the empty
repository. -/
theorem c6_store_sent_roundtrip_witness :
    ∃ m, (StoreSentMessage 5 (mkRepo []) c6params).ret = Except.ok m ∧
      (StoreSentMessage 5 (mkRepo []) c6params).repo.load "" c6params.id = Except.ok m ∧
      m.status = MessageStatus.pending ∧ m.type = MessageType.mobileTerminated ∧
      m.requestReceivedAt = c6params.timestamp ∧ m.orderTimestamp = c6params.timestamp ∧
      m.sendDuration = none ∧ m.lastAttemptedAt = none ∧ m.sentAt = none ∧
      m.receivedAt = none :=
  c6_store_sent_roundtrip 5 (mkRepo []) c6params rfl rfl

/-- C7 counterexample: two HandleMessageSending calls that both succeed
while persisting different updated records return the very same value, so
the success return cannot carry the updated record (the Go functions
return only error). -/
theorem c7_handlers_return_no_record_counterexample :
    (HandleMessageSending c7repoA c7pA).ret = Except.ok () ∧
    (HandleMessageSending c7repoB c7pB).ret = (HandleMessageSending c7repoA c7pA).ret ∧
    (HandleMessageSending c7repoA c7pA).updates ≠ (HandleMessageSending c7repoB c7pB).updates := by
  decide

/-- C7 amended: each of the four HandleMessage operations performs only
load, guard and persist — it dispatches no event and stores no new row —
and on guard failure it returns a transition error with no side effect;
on success it returns only a nil error, not the updated record. -/
theorem c7_handlers_no_dispatch (repo : Repo) (p : HandleMessageParams) (m : Message) :
    (HandleMessageSending repo p).events = [] ∧ (HandleMessageSent repo p).events = [] ∧
    (HandleMessageFailed repo p).events = [] ∧ (HandleMessageDelivered repo p).events = [] ∧
    (HandleMessageSending repo p).stores = [] ∧ (HandleMessageSent repo p).stores = [] ∧
    (HandleMessageFailed repo p).stores = [] ∧ (HandleMessageDelivered repo p).stores = [] ∧
    (repo.load p.userID p.id = Except.ok m → m.IsSent = false →
      HandleMessageDelivered repo p =
        { events := [], updates := [], stores := [], repo := repo,
          ret := Except.error (wrongStatusSingle m.status MessageStatus.sent) }) := by
  refine ⟨?_, ?_, ?_, ?_, ?_, ?_, ?_, ?_, ?_⟩
  · unfold HandleMessageSending
    rcases repo.load p.userID p.id with e | msg
    · rfl
    · by_cases hs : msg.IsSending <;> simp [hs, noSideEffects] <;>
        rcases repo.update (msg.AddSendAttempt p.timestamp) with e2 | r2 <;> rfl
  · unfold HandleMessageSent
    rcases repo.load p.userID p.id with e | msg
    · rfl
    · by_cases hs : msg.IsSending <;> simp [hs, noSideEffects] <;>
        rcases repo.update (msg.Sent p.timestamp) with e2 | r2 <;> rfl
  · unfold HandleMessageFailed
    rcases repo.load p.userID p.id with e | msg
    · rfl
    · by_cases hs : (!msg.IsSent && !msg.IsSending) <;> simp [hs, noSideEffects] <;>
        rcases repo.update (msg.Failed p.timestamp) with e2 | r2 <;> rfl
  · unfold HandleMessageDelivered
    rcases repo.load p.userID p.id with e | msg
    · rfl
    · by_cases hs : msg.IsSent <;> simp [hs, noSideEffects] <;>
        rcases repo.update (msg.Delivered p.timestamp) with e2 | r2 <;> rfl
  · unfold HandleMessageSending
    rcases repo.load p.userID p.id with e | msg
    · rfl
    · by_cases hs : msg.IsSending <;> simp [hs, noSideEffects] <;>
        rcases repo.update (msg.AddSendAttempt p.timestamp) with e2 | r2 <;> rfl
  · unfold HandleMessageSent
    rcases repo.load p.userID p.id with e | msg
    · rfl
    · by_cases hs : msg.IsSending <;> simp [hs, noSideEffects] <;>
        rcases repo.update (msg.Sent p.timestamp) with e2 | r2 <;> rfl
  · unfold HandleMessageFailed
    rcases repo.load p.userID p.id with e | msg
    · rfl
    · by_cases hs : (!msg.IsSent && !msg.IsSending) <;> simp [hs, noSideEffects] <;>
        rcases repo.update (msg.Failed p.timestamp) with e2 | r2 <;> rfl
  · unfold HandleMessageDelivered
    rcases repo.load p.userID p.id with e | msg
    · rfl
    · by_cases hs : msg.IsSent <;> simp [hs, noSideEffects] <;>
        rcases repo.update (msg.Delivered p.timestamp) with e2 | r2 <;> rfl
  · intro hl hg
    unfold HandleMessageDelivered
    rw [hl]
    simp [hg, noSideEffects]

/-- C7 amended witness: the frame facts and the Delivered guard failure
at a concrete Pending message. -/
theorem c7_handlers_no_dispatch_witness :
    (HandleMessageSending c7repoC c7pC).events = [] ∧
    (HandleMessageDelivered c7repoC c7pC).stores = [] ∧
    HandleMessageDelivered c7repoC c7pC =
      { events := [], updates := [], stores := [], repo := c7repoC,
        ret := Except.error (wrongStatusSingle MessageStatus.pending MessageStatus.sent) } := by
  have h := c7_handlers_no_dispatch c7repoC c7pC c7mC
  exact ⟨h.1, h.2.2.2.2.2.2.2.1, h.2.2.2.2.2.2.2.2 (by rfl) (by decide)⟩

/-- C9: the record StoreSentMessage hands to Store has UserID at the zero
value (it is never copied from the params), whereas StoreReceivedMessage
stores the params UserID; hence when params.UserID is non-empty the
record stored by StoreSentMessage never carries it. -/
theorem c9_store_sent_drops_userID (now : Nat) (repo : Repo)
    (params : MessageStoreParams) :
    ((StoreSentMessage now repo params).stores.map (fun m => m.userID)) = [""] ∧
    ((StoreReceivedMessage now repo params).stores.map (fun m => m.userID)) = [params.userID] ∧
    (params.userID ≠ "" →
      ∀ m ∈ (StoreSentMessage now repo params).stores, m.userID ≠ params.userID) := by
  have h1 : (StoreSentMessage now repo params).stores = [builtSentMessage now params] := by
    unfold StoreSentMessage
    cases h : repo.store (builtSentMessage now params) <;> simp [h]
  have h2 : (StoreReceivedMessage now repo params).stores = [builtReceivedMessage now params] := by
    unfold StoreReceivedMessage
    cases h : repo.store (builtReceivedMessage now params) <;> simp [h]
  refine ⟨?_, ?_, ?_⟩
  · rw [h1]
    rfl
  · rw [h2]
    rfl
  · intro hne m hm
    rw [h1] at hm
    simp at hm
    subst hm
    simp [builtSentMessage]
    intro hcm
    exact hne hcm.symm

/-- C9 witness: with a non-empty params UserID the stored sent record
carries the empty UserID, the stored received record carries the params
UserID. -/
theorem c9_store_sent_drops_userID_witness :
    ((StoreSentMessage 1 (mkRepo []) c9params).stores.map (fun m => m.userID)) = [""] ∧
    ((StoreReceivedMessage 1 (mkRepo []) c9params).stores.map (fun m => m.userID)) = ["u9"] ∧
    (∀ m ∈ (StoreSentMessage 1 (mkRepo []) c9params).stores, m.userID ≠ "u9") := by
  have h := c9_store_sent_drops_userID 1 (mkRepo []) c9params
  exact ⟨h.1, h.2.1, h.2.2 (by decide)⟩

end HttpSms
